import Mathlib

/-!
Verification of the background-removal service core: a shallow embedding of
`app/utils.py` (validation gate), `app/main.py` (endpoints, worker pool,
processing pipeline) and `app/models.py` (response records), with theorems
settling the behavioural claims about validation ordering, the bounded
worker pool, the engine-session lifecycle, the failure envelope, the
compression ratio and the re-encode parameter selection.
-/

namespace BgRemover

/-- Bytes are modelled as natural numbers; a byte string is a list. -/
abbrev ByteSeq := List Nat

/-- FastAPI HTTPException: a status code plus a detail message. -/
structure HTTPException where
  status_code : Nat
  detail : String
deriving DecidableEq, Repr

/-- Upload as the handlers see it: declared filename, declared content type
(either may be absent) and the raw bytes.  Mirrors `fastapi.UploadFile`. -/
structure UploadFile where
  filename : Option String
  content_type : Option String
  content : ByteSeq
deriving Repr

/-! ## Validation gate (`app/utils.py`) -/

/-- `ALLOWED_EXTENSIONS` from `app/utils.py` line 9. -/
def ALLOWED_EXTENSIONS : List String :=
  [".jpg", ".jpeg", ".png", ".bmp", ".tiff", ".webp"]

/-- `MAX_FILE_SIZE = 10 * 1024 * 1024` from `app/utils.py` line 10. -/
def MAX_FILE_SIZE : Nat := 10 * 1024 * 1024

/-- Python `str.split` with separator `.` on a character list: splitting the
empty string yields one empty field, and every separator starts a new field. -/
def splitDot : List Char → List (List Char)
  | [] => [[]]
  | c :: cs =>
    if c = '.' then [] :: splitDot cs
    else
      match splitDot cs with
      | [] => [[c]]
      | p :: ps => (c :: p) :: ps

/-- Python `str.lower`, character by character. -/
def lowerChars (l : List Char) : List Char := l.map Char.toLower

/-- The extension computed at `app/utils.py` line 16:
`file.filename.lower().split('.')[-1] if file.filename else ''`.
A `None` or empty filename is falsy in Python and yields the empty string. -/
def file_ext (filename : Option String) : String :=
  match filename with
  | none => ""
  | some f => if f = "" then "" else String.mk ((splitDot (lowerChars f.data)).getLastD [])

/-- The HTTPException raised for a disallowed extension (utils.py lines 17-21). -/
def unsupported_format_exc : HTTPException :=
  { status_code := 400
    detail := "Unsupported file format. Allowed: .jpg, .jpeg, .png, .bmp, .tiff, .webp" }

/-- The HTTPException raised for a bad content type (utils.py lines 24-28). -/
def invalid_content_type_exc : HTTPException :=
  { status_code := 400
    detail := "Invalid content type. Please upload an image file." }

/-- The HTTPException raised for an oversized upload (utils.py lines 32-36). -/
def payload_too_large_exc : HTTPException :=
  { status_code := 413
    detail := "File too large. Maximum size: 10MB" }

/-- Python `str.startswith`: the second list is a leading segment of the first. -/
def startsWithChars : List Char → List Char → Bool
  | _, [] => true
  | [], _ :: _ => false
  | c :: cs, p :: ps => c = p && startsWithChars cs ps

/-- The content-type test at `app/utils.py` line 24:
`not file.content_type or not file.content_type.startswith('image/')`.
`None` and the empty string are falsy. -/
def content_type_invalid : Option String → Bool
  | none => true
  | some s => s == "" || !(startsWithChars s.data "image/".data)

/-- `validate_image` from `app/utils.py` lines 12-39: extension check, then
content-type check, then size check, raising on the first failure. -/
def validate_image (file : UploadFile) : Except HTTPException Unit :=
  if !(ALLOWED_EXTENSIONS.contains ("." ++ file_ext file.filename)) then
    Except.error unsupported_format_exc
  else if content_type_invalid file.content_type then
    Except.error invalid_content_type_exc
  else if file.content.length > MAX_FILE_SIZE then
    Except.error payload_too_large_exc
  else
    Except.ok ()

example : validate_image ⟨some "cat.PNG", some "image/png", [1, 2, 3]⟩ = Except.ok () := by rfl

example : validate_image ⟨some "cat.txt", some "image/png", [1]⟩ =
    Except.error unsupported_format_exc := by rfl

example : validate_image ⟨some "png", some "image/png", [1]⟩ = Except.ok () := by rfl

example : validate_image ⟨none, some "image/png", [1]⟩ =
    Except.error unsupported_format_exc := by rfl

example : validate_image ⟨some "a.png", some "text/plain", [1]⟩ =
    Except.error invalid_content_type_exc := by rfl

/-! ## External collaborators: segmentation engine and image codec

The rembg session, `rembg.remove`, `PIL.Image.open` and `PIL.Image.save` are
external collaborators (spec section 6); they are modelled at their interface
boundary.  A pixel buffer is its dimensions plus a mode string; `convert`
changes only the mode (PIL conversion preserves pixel dimensions). -/

/-- Handle to one loaded rembg model instance, as produced by `new_session`. -/
structure Session where
  model_name : String
deriving DecidableEq, Repr

/-- A decoded pixel buffer as PIL exposes it: dimensions and a mode string. -/
structure PILImage where
  width : Nat
  height : Nat
  mode : String
deriving DecidableEq, Repr

/-- PIL `img.convert(m)`: changes the mode, preserves the pixel dimensions. -/
def convert (img : PILImage) (m : String) : PILImage :=
  { img with mode := m }

/-- Keyword arguments passed to PIL `img.save` in `process_image_sync`. -/
structure EncodeParams where
  format : String
  optimize : Bool
  compress_level : Option Nat
  quality : Option Nat
  method : Option Nat
  lossless : Option Bool
deriving DecidableEq, Repr

/-- Codec semantics for the formats used here (spec section 4.3): PNG encoding
is always lossless; WEBP encoding is lossless exactly when its lossless flag
is set. -/
def lossless_encoding (p : EncodeParams) : Prop :=
  p.format = "PNG" ∨ p.lossless = some true

/-- The collaborators a request uses: `rembg.remove` on the shared session,
`PIL.Image.open` (decode, may fail) and `PIL.Image.save` (encode to bytes). -/
structure PipelineEnv where
  remove : ByteSeq → Session → Except String ByteSeq
  image_open : ByteSeq → Except String PILImage
  image_save : PILImage → EncodeParams → ByteSeq

/-! ## Processing pipeline (`app/main.py`, `process_image_sync`) -/

/-- The save parameters chosen at `app/main.py` lines 367-383: PNG gets
`optimize=True, compress_level=6`; anything else is saved as WEBP with
`quality=quality, method=6, lossless=(False if quality < 100 else True)`. -/
def encode_params (output_format : String) (quality : Nat) : EncodeParams :=
  if output_format.toUpper == "PNG" then
    { format := "PNG", optimize := true, compress_level := some 6,
      quality := none, method := none, lossless := none }
  else
    { format := "WEBP", optimize := false, compress_level := none,
      quality := some quality, method := some 6,
      lossless := some (if quality < 100 then false else true) }

/-- The transparency guard at `app/main.py` lines 361-362:
`if img.mode != 'RGBA': img = img.convert('RGBA')`. -/
def ensure_rgba (img : PILImage) : PILImage :=
  if img.mode ≠ "RGBA" then convert img "RGBA" else img

/-- `process_image_sync` from `app/main.py` lines 337-385: read the global
session (fail if unset), invoke the engine, decode the result, force RGBA,
and re-encode with the parameters selected by the output format.  Exceptions
raised by the collaborators are the `Except.error` branches. -/
def process_image_sync (env : PipelineEnv) (rembg_session : Option Session)
    (image_data : ByteSeq) (output_format : String) (quality : Nat) :
    Except String ByteSeq :=
  match rembg_session with
  | none => Except.error "Rembg session not initialized"
  | some session =>
    match env.remove image_data session with
    | Except.error e => Except.error e
    | Except.ok output_image =>
      match env.image_open output_image with
      | Except.error e => Except.error e
      | Except.ok img0 =>
        let img := ensure_rgba img0
        Except.ok (env.image_save img (encode_params output_format quality))

/-! ## Response assembly (`app/models.py` and the endpoint bodies) -/

/-- Standard base64 alphabet used by `base64.b64encode`. -/
def B64_ALPHABET : List Char :=
  "ABCDEFGHIJKLMNOPQRSTUVWXYZabcdefghijklmnopqrstuvwxyz0123456789+/".data

/-- Base64-encode a byte sequence, three bytes at a time, with `=` padding. -/
def b64chunks : ByteSeq → List Char
  | [] => []
  | [a] =>
    [B64_ALPHABET.getD (a / 4 % 64) 'A', B64_ALPHABET.getD (a % 4 * 16) 'A', '=', '=']
  | [a, b] =>
    [B64_ALPHABET.getD (a / 4 % 64) 'A', B64_ALPHABET.getD (a % 4 * 16 + b / 16 % 16) 'A',
     B64_ALPHABET.getD (b % 16 * 4) 'A', '=']
  | a :: b :: c :: rest =>
    B64_ALPHABET.getD (a / 4 % 64) 'A' :: B64_ALPHABET.getD (a % 4 * 16 + b / 16 % 16) 'A' ::
    B64_ALPHABET.getD (b % 16 * 4 + c / 64 % 4) 'A' :: B64_ALPHABET.getD (c % 64) 'A' ::
    b64chunks rest

/-- `base64.b64encode(...).decode('utf-8')` as a Lean string. -/
def b64encode (bytes : ByteSeq) : String :=
  String.mk (b64chunks bytes)

/-- Python `round(q, 2)`: round to two decimal places. -/
def round2 (q : ℚ) : ℚ := ((round (q * 100) : ℤ) : ℚ) / 100

/-- `BackgroundRemovalResponse` from `app/models.py`. -/
structure BackgroundRemovalResponse where
  success : Bool
  message : String
  base64_image : String
  processing_time : ℚ
  output_format : String
  original_size : Nat
  output_size : Nat
  compression_ratio : ℚ
deriving Repr

/-- `HealthResponse` from `app/models.py`. -/
structure HealthResponse where
  status : String
  message : String
  version : String
deriving DecidableEq, Repr

/-- The streamed response of `/remove-background`: body plus the metadata
headers built at `app/main.py` lines 209-222 (the wall-clock timing header is
real time and is outside the embedding). -/
structure StreamedResponse where
  body : ByteSeq
  media_type : String
  content_disposition : String
  x_original_size : Nat
  x_output_size : Nat
  x_output_format : String
deriving Repr

/-- Python `name.rsplit('.', 1)[0]`: everything before the last dot, or the
whole list when there is no dot. -/
def dropLastExt (l : List Char) : List Char :=
  match l.reverse.dropWhile (fun c => c != '.') with
  | [] => l
  | _ :: rest => rest.reverse

/-- `original_filename = file.filename or "image"` (main.py lines 180, 268). -/
def original_filename_of (filename : Option String) : String :=
  match filename with
  | none => "image"
  | some f => if f = "" then "image" else f

/-! ## Endpoints (`app/main.py`) -/

/-- `/remove-background` (main.py lines 147-233): validate, read, process in
the executor, and either stream the bytes with metadata headers or re-raise —
a validation HTTPException propagates unchanged, any processing exception is
wrapped in a 500.  The wall-clock timing header is outside the embedding. -/
def remove_background (env : PipelineEnv) (rembg_session : Option Session)
    (file : UploadFile) (output_format : String) (quality : Nat) :
    Except HTTPException StreamedResponse :=
  let original_filename := original_filename_of file.filename
  match validate_image file with
  | Except.error e => Except.error e
  | Except.ok _ =>
    let image_data := file.content
    match process_image_sync env rembg_session image_data output_format quality with
    | Except.error e =>
      Except.error { status_code := 500, detail := "Background removal failed: " ++ e }
    | Except.ok processed_image =>
      let content_type := if output_format.toUpper == "PNG" then "image/png" else "image/webp"
      let file_extension := output_format.toLower
      let output_filename :=
        "no_bg_" ++ String.mk (dropLastExt original_filename.data) ++ "." ++ file_extension
      Except.ok
        { body := processed_image
          media_type := content_type
          content_disposition := "attachment; filename=" ++ output_filename
          x_original_size := image_data.length
          x_output_size := processed_image.length
          x_output_format := output_format.toUpper }

/-- `/remove-background-base64` (main.py lines 235-335): validate, process,
and always answer with the JSON envelope — an HTTPException (validation) and
a generic exception (processing) each produce a `success=False` envelope with
empty payload and zero sizes.  `processing_time` abstracts wall-clock time. -/
def remove_background_base64 (env : PipelineEnv) (rembg_session : Option Session)
    (file : UploadFile) (output_format : String) (quality : Nat)
    (processing_time : ℚ) : BackgroundRemovalResponse :=
  let original_filename := original_filename_of file.filename
  match validate_image file with
  | Except.error e =>
    { success := false
      message := "Validation failed: " ++ e.detail
      base64_image := ""
      processing_time := processing_time
      output_format := ""
      original_size := 0
      output_size := 0
      compression_ratio := 0 }
  | Except.ok _ =>
    let image_data := file.content
    let original_size := image_data.length
    match process_image_sync env rembg_session image_data output_format quality with
    | Except.error e =>
      { success := false
        message := "Background removal failed: " ++ e
        base64_image := ""
        processing_time := processing_time
        output_format := ""
        original_size := 0
        output_size := 0
        compression_ratio := 0 }
    | Except.ok processed_image =>
      let base64_image := b64encode processed_image
      let output_size := processed_image.length
      { success := true
        message := "Background removed successfully from " ++ original_filename
        base64_image := base64_image
        processing_time := processing_time
        output_format := output_format.toLower
        original_size := original_size
        output_size := output_size
        compression_ratio :=
          if output_size < original_size then
            round2 ((1 - (output_size : ℚ) / (original_size : ℚ)) * 100)
          else 0 }

/-! ## Service lifecycle (`app/main.py` lines 78-108)

The module-level `rembg_session = None` is the only mutable global the request
paths touch; `startup_event` is the one place that assigns it.  The lifecycle
is modelled as explicit state passing: each handler takes the app state and
returns it together with its response. -/

/-- The mutable module state of `app/main.py`: the global `rembg_session`. -/
structure AppState where
  rembg_session : Option Session
deriving DecidableEq, Repr

/-- The state at import time: `rembg_session = None` (main.py line 79). -/
def initial_app_state : AppState := { rembg_session := none }

/-- `startup_event` (main.py lines 82-101): run `new_session` in the executor
and assign the global; a failure aborts startup with RuntimeError and the
service never accepts requests.  `new_session_result` abstracts the model
load. -/
def startup_event (new_session_result : Except String Session) (st : AppState) :
    Except String AppState :=
  match new_session_result with
  | Except.error e => Except.error ("Startup failed: " ++ e)
  | Except.ok s => Except.ok { st with rembg_session := some s }

/-- One inbound request to either processing endpoint, with its form fields
(and, for the envelope endpoint, the abstracted wall-clock duration). -/
inductive Request
  | stream (file : UploadFile) (output_format : String) (quality : Nat)
  | envelope (file : UploadFile) (output_format : String) (quality : Nat) (t : ℚ)

/-- The response produced for a `Request`. -/
inductive Response
  | stream (r : Except HTTPException StreamedResponse)
  | envelope (r : BackgroundRemovalResponse)

/-- Dispatch one request against the current app state.  Both handlers only
read `rembg_session` (through `process_image_sync`); neither assigns it, so
each returns the state unchanged — exactly as in the source, where only
`startup_event` contains an assignment to the global. -/
def handle_request (env : PipelineEnv) (st : AppState) :
    Request → Response × AppState
  | Request.stream file fmt q =>
    (Response.stream (remove_background env st.rembg_session file fmt q), st)
  | Request.envelope file fmt q t =>
    (Response.envelope (remove_background_base64 env st.rembg_session file fmt q t), st)

/-- Run a sequence of requests, threading the app state through. -/
def run_requests (env : PipelineEnv) (st : AppState) :
    List Request → List Response × AppState
  | [] => ([], st)
  | r :: rs =>
    let step := handle_request env st r
    let rest := run_requests env step.2 rs
    (step.1 :: rest.1, rest.2)

/-! ## Bounded worker pool (`app/main.py` line 80)

`executor = ThreadPoolExecutor(max_workers=4)` backs every
`loop.run_in_executor(executor, lambda: process_image_sync(...))` call.  The
pool is modelled as a labelled transition system: submitted units wait in a
FIFO queue, a unit is admitted onto a worker thread only while fewer than
`POOL_CAPACITY` units are running, and a running unit walks through the
phases of `process_image_sync`.  Nothing in the source guards the
`remove(image_data, session=rembg_session)` call with a lock, so the step
rules let any number of running units sit inside the engine at once. -/

/-- `max_workers=4` from `app/main.py` line 80. -/
def POOL_CAPACITY : Nat := 4

/-- Where a running unit of work is inside `process_image_sync`:
before the `remove(...)` call, inside it, or past it (decode + re-encode). -/
inductive UnitPhase
  | beforeEngine
  | inEngine
  | afterEngine
deriving DecidableEq, Repr

/-- State of the executor: queued unit ids in FIFO order, units running on
worker threads with their phase, and finished unit ids. -/
structure PoolState where
  queued : List Nat
  running : List (Nat × UnitPhase)
  finished : List Nat
deriving DecidableEq, Repr

/-- Pool state when `K` units have been submitted and none has started. -/
def init_pool (K : Nat) : PoolState :=
  { queued := List.range K, running := [], finished := [] }

/-- `ThreadPoolExecutor.submit`: the work item is always accepted and placed
at the tail of the FIFO queue — there is no capacity check, no timeout and no
failure outcome. -/
def executor_submit (s : PoolState) (k : Nat) : PoolState :=
  { s with queued := s.queued ++ [k] }

/-- A queued unit may begin executing: it must be at the head of the FIFO
queue and a worker thread must be free. -/
def canAcquire (s : PoolState) (k : Nat) : Prop :=
  s.running.length < POOL_CAPACITY ∧ s.queued.head? = some k

/-- One scheduler step of the pool.  `admit` starts the queue head on a free
thread; `enterEngine` / `exitEngine` bracket the unguarded
`remove(image_data, session=rembg_session)` call; `finish` completes a unit
and frees its thread.  No rule requires the engine section to be empty before
another unit enters it. -/
inductive PoolStep : PoolState → PoolState → Prop
  | acquire (s : PoolState) (k : Nat) (rest : List Nat)
      (hcap : s.running.length < POOL_CAPACITY)
      (hq : s.queued = k :: rest) :
      PoolStep s { queued := rest,
                   running := s.running ++ [(k, UnitPhase.beforeEngine)],
                   finished := s.finished }
  | enterEngine (s : PoolState) (k : Nat) (l₁ l₂ : List (Nat × UnitPhase))
      (hr : s.running = l₁ ++ (k, UnitPhase.beforeEngine) :: l₂) :
      PoolStep s { s with running := l₁ ++ (k, UnitPhase.inEngine) :: l₂ }
  | exitEngine (s : PoolState) (k : Nat) (l₁ l₂ : List (Nat × UnitPhase))
      (hr : s.running = l₁ ++ (k, UnitPhase.inEngine) :: l₂) :
      PoolStep s { s with running := l₁ ++ (k, UnitPhase.afterEngine) :: l₂ }
  | finish (s : PoolState) (k : Nat) (l₁ l₂ : List (Nat × UnitPhase))
      (hr : s.running = l₁ ++ (k, UnitPhase.afterEngine) :: l₂) :
      PoolStep s { queued := s.queued, running := l₁ ++ l₂,
                   finished := s.finished ++ [k] }

/-- Pool states reachable from `K` concurrent submissions. -/
def PoolReachable (K : Nat) (s : PoolState) : Prop :=
  Relation.ReflTransGen PoolStep (init_pool K) s

/-- Two distinct units of work are inside the Segmentation Engine invocation
on the shared session at the same instant. -/
def twoInEngine (s : PoolState) : Prop :=
  ∃ i j, i ≠ j ∧ (i, UnitPhase.inEngine) ∈ s.running ∧
    (j, UnitPhase.inEngine) ∈ s.running

/-! ## Helper lemmas -/

/-- Lowercasing never turns another character into a dot. -/
lemma toLower_ne_dot (c : Char) (h : c ≠ '.') : c.toLower ≠ '.' := by
  unfold Char.toLower
  show (if c.toNat ≥ 65 ∧ c.toNat ≤ 90 then Char.ofNat (c.toNat + 32) else c) ≠ '.'
  by_cases hc : c.toNat ≥ 65 ∧ c.toNat ≤ 90
  · rw [if_pos hc]
    obtain ⟨h1, h2⟩ := hc
    generalize hg : c.toNat = n at h1 h2
    clear hg h
    interval_cases n <;> decide
  · rw [if_neg hc]
    exact h

/-- Splitting a dot-free character list yields the list itself as sole field. -/
lemma splitDot_no_dot (l : List Char) (h : '.' ∉ l) : splitDot l = [l] := by
  induction l with
  | nil => rfl
  | cons c cs ih =>
    have hc : ¬ (c = '.') := fun e => h (e ▸ List.mem_cons_self c cs)
    have hcs : '.' ∉ cs := fun hm => h (List.mem_cons_of_mem _ hm)
    simp [splitDot, hc, ih hcs]

/-- Lowercasing a dot-free character list keeps it dot-free. -/
lemma lowerChars_no_dot (l : List Char) (h : '.' ∉ l) : '.' ∉ lowerChars l := by
  intro hm
  rcases List.mem_map.1 hm with ⟨c, hc, he⟩
  exact toLower_ne_dot c (fun e => h (e ▸ hc)) he

/-- Appending to a nonempty string stays nonempty. -/
lemma append_ne_empty (a b : String) (ha : a ≠ "") : a ++ b ≠ "" := by
  intro hab
  apply ha
  have hd : (a ++ b).data = ("" : String).data := congrArg String.data hab
  simp at hd
  cases a with
  | mk d => simp_all

/-- `validate_image` can only produce one of its three exceptions. -/
lemma validate_image_error_cases (file : UploadFile) (e : HTTPException)
    (h : validate_image file = Except.error e) :
    e = unsupported_format_exc ∨ e = invalid_content_type_exc ∨
      e = payload_too_large_exc := by
  unfold validate_image at h
  split_ifs at h <;> simp_all

/-- Any `/remove-background` failure carries status 400, 413 or 500: the
validation exceptions propagate unchanged and every processing exception is
wrapped in a 500. -/
lemma remove_background_error_status (env : PipelineEnv) (sess : Option Session)
    (file : UploadFile) (fmt : String) (q : Nat) (e : HTTPException)
    (h : remove_background env sess file fmt q = Except.error e) :
    e.status_code = 400 ∨ e.status_code = 413 ∨ e.status_code = 500 := by
  unfold remove_background at h
  cases hv : validate_image file with
  | error e0 =>
    rw [hv] at h
    simp at h
    rcases validate_image_error_cases file e0 hv with h0 | h0 | h0 <;>
      simp [← h, h0, unsupported_format_exc, invalid_content_type_exc,
        payload_too_large_exc]
  | ok u =>
    cases u
    rw [hv] at h
    dsimp only at h
    cases hp : process_image_sync env sess file.content fmt q with
    | error msg => rw [hp] at h; simp at h; simp [← h]
    | ok out => rw [hp] at h; simp at h

/-- A validation failure short-circuits `/remove-background`: the endpoint
re-raises the HTTPException for every environment, so no unit of work is ever
submitted and the Segmentation Engine is not invoked. -/
lemma remove_background_of_validate_error (env : PipelineEnv)
    (sess : Option Session) (file : UploadFile) (fmt : String) (q : Nat)
    (e : HTTPException) (h : validate_image file = Except.error e) :
    remove_background env sess file fmt q = Except.error e := by
  unfold remove_background
  rw [h]

/-! ## Claim C6: validation check order -/

/-- C6: `validate_image` checks extension, then content type, then size, and
short-circuits.  An upload whose lowercased extension is outside the
allow-set is rejected with the UnsupportedFormat exception whatever its
content type and size; an upload with an allowed extension but an absent or
non-`image/` content type is rejected with the InvalidContentType exception
whatever its size. -/
theorem validate_checks_in_order (fn ct : Option String) (bytes : ByteSeq) :
    (ALLOWED_EXTENSIONS.contains ("." ++ file_ext fn) = false →
      validate_image ⟨fn, ct, bytes⟩ = Except.error unsupported_format_exc) ∧
    (ALLOWED_EXTENSIONS.contains ("." ++ file_ext fn) = true →
      content_type_invalid ct = true →
      validate_image ⟨fn, ct, bytes⟩ = Except.error invalid_content_type_exc) := by
  constructor
  · intro h
    have h' : "." ++ file_ext fn ∉ ALLOWED_EXTENSIONS := by simpa using h
    simp [validate_image, h']
  · intro h hct
    have h' : "." ++ file_ext fn ∈ ALLOWED_EXTENSIONS := by simpa using h
    simp [validate_image, h', hct]

/-- Witness for C6 at concrete uploads: a `.txt` upload is rejected as
UnsupportedFormat regardless of its image content type, and a `.png` upload
with a missing content type is rejected as InvalidContentType. -/
theorem validate_checks_in_order_witness :
    validate_image ⟨some "cat.txt", some "image/png", [1]⟩ =
      Except.error unsupported_format_exc ∧
    validate_image ⟨some "cat.png", none, [1]⟩ =
      Except.error invalid_content_type_exc :=
  ⟨(validate_checks_in_order (some "cat.txt") (some "image/png") [1]).1 (by rfl),
   (validate_checks_in_order (some "cat.png") none [1]).2 (by rfl) (by rfl)⟩

/-! ## Claim C5: oversized uploads -/

/-- An upload one byte over the 10 MiB ceiling whose filename extension is
outside the allow-set. -/
def oversized_bad_ext_file : UploadFile :=
  { filename := some "a.txt"
    content_type := some "image/png"
    content := List.replicate (MAX_FILE_SIZE + 1) 0 }

/-- C5 counterexample: an upload exceeding 10 MiB is not always rejected with
the 413 PayloadTooLarge classification — with a disallowed extension the
earlier check fires first and `validate_image` answers 400 UnsupportedFormat. -/
theorem oversized_upload_not_always_413 :
    MAX_FILE_SIZE < oversized_bad_ext_file.content.length ∧
    validate_image oversized_bad_ext_file = Except.error unsupported_format_exc ∧
    unsupported_format_exc.status_code = 400 ∧
    unsupported_format_exc ≠ payload_too_large_exc := by
  refine ⟨?_, ?_, rfl, by decide⟩
  · simp [oversized_bad_ext_file]
  · have hext : "." ++ file_ext (some "a.txt") ∉ ALLOWED_EXTENSIONS := by decide
    simp [validate_image, oversized_bad_ext_file, hext]

/-- C5 (amended): an upload over 10 MiB that passes the extension and
content-type checks is rejected with the 413 PayloadTooLarge exception, and
whenever `validate_image` rejects, `/remove-background` re-raises that
rejection for every environment — in particular the Segmentation Engine is
never invoked for that request. -/
theorem oversized_upload_rejected (fn ct : Option String) (bytes : ByteSeq)
    (hext : ALLOWED_EXTENSIONS.contains ("." ++ file_ext fn) = true)
    (hct : content_type_invalid ct = false)
    (hsize : MAX_FILE_SIZE < bytes.length) :
    validate_image ⟨fn, ct, bytes⟩ = Except.error payload_too_large_exc ∧
    (∀ (file : UploadFile) (e : HTTPException), validate_image file = Except.error e →
      ∀ (env : PipelineEnv) (sess : Option Session) (fmt : String) (q : Nat),
        remove_background env sess file fmt q = Except.error e) := by
  constructor
  · have hext' : "." ++ file_ext fn ∈ ALLOWED_EXTENSIONS := by simpa using hext
    simp [validate_image, hext', hct, hsize]
  · intro file e he env sess fmt q
    exact remove_background_of_validate_error env sess file fmt q e he

/-- Witness for C5 (amended) at a concrete oversized PNG upload. -/
theorem oversized_upload_rejected_witness :
    validate_image ⟨some "big.png", some "image/png",
        List.replicate (MAX_FILE_SIZE + 1) 0⟩ =
      Except.error payload_too_large_exc :=
  (oversized_upload_rejected (some "big.png") (some "image/png")
    (List.replicate (MAX_FILE_SIZE + 1) 0) (by rfl) (by rfl) (by simp)).1

/-! ## Claim C10: dotless filenames -/

/-- C10: the extension is the lowercased text after the last dot, so a
dot-free filename is its own extension — a file named (any capitalization of)
an allow-set member passes the extension check — while a missing filename
yields the empty extension and the UnsupportedFormat rejection rather than an
unhandled fault. -/
theorem dotless_filename_is_own_ext (name : String) (hname : name ≠ "")
    (hnodot : '.' ∉ name.data) :
    file_ext (some name) = String.mk (lowerChars name.data) ∧
    (String.mk (lowerChars name.data) ∈ ["jpg", "jpeg", "png", "bmp", "tiff", "webp"] →
      ∀ ct bytes, validate_image ⟨some name, ct, bytes⟩ ≠
        Except.error unsupported_format_exc) ∧
    (∀ ct bytes, validate_image ⟨none, ct, bytes⟩ =
      Except.error unsupported_format_exc) := by
  have h1 : file_ext (some name) = String.mk (lowerChars name.data) := by
    rw [show file_ext (some name) =
        if name = "" then ""
        else String.mk ((splitDot (lowerChars name.data)).getLastD []) from rfl]
    rw [if_neg hname, splitDot_no_dot _ (lowerChars_no_dot _ hnodot)]
    rfl
  refine ⟨h1, ?_, ?_⟩
  · intro hmem ct bytes
    have hcontains : "." ++ file_ext (some name) ∈ ALLOWED_EXTENSIONS := by
      rw [h1]
      simp only [List.mem_cons, List.not_mem_nil, or_false] at hmem
      rcases hmem with h | h | h | h | h | h <;> rw [h] <;> decide
    intro hbad
    unfold validate_image at hbad
    have hc : (!ALLOWED_EXTENSIONS.contains ("." ++ file_ext (some name))) = false := by
      simpa using hcontains
    rw [hc] at hbad
    simp at hbad
    split_ifs at hbad <;> simp_all [unsupported_format_exc, invalid_content_type_exc,
      payload_too_large_exc]
  · intro ct bytes
    rfl

/-- Witness for C10 at the filename `PNG`: the whole name, lowercased, is the
extension, so the file passes the extension check; the missing-filename case
is rejected as UnsupportedFormat. -/
theorem dotless_filename_is_own_ext_witness :
    file_ext (some "PNG") = String.mk (lowerChars "PNG".data) ∧
    (String.mk (lowerChars "PNG".data) ∈ ["jpg", "jpeg", "png", "bmp", "tiff", "webp"] →
      ∀ ct bytes, validate_image ⟨some "PNG", ct, bytes⟩ ≠
        Except.error unsupported_format_exc) ∧
    (∀ ct bytes, validate_image ⟨none, ct, bytes⟩ =
      Except.error unsupported_format_exc) :=
  dotless_filename_is_own_ext "PNG" (by decide) (by decide)

/-! ## Claim C2: the session is assigned once, at startup -/

/-- Every request handler leaves the app state untouched: no request path
contains an assignment to the global `rembg_session`. -/
lemma handle_request_preserves_state (env : PipelineEnv) (st : AppState)
    (r : Request) : (handle_request env st r).2 = st := by
  cases r <;> rfl

/-- Running any request sequence leaves the app state untouched. -/
lemma run_requests_preserves_state (env : PipelineEnv) (reqs : List Request) :
    ∀ st : AppState, (run_requests env st reqs).2 = st := by
  induction reqs with
  | nil => intro st; rfl
  | cons r rs ih =>
    intro st
    show (run_requests env (handle_request env st r).2 rs).2 = st
    rw [handle_request_preserves_state, ih]

/-- C2: when startup succeeds, the engine handle is exactly the session the
startup event loaded, every request-handling path (including
`process_image_sync`, which both handlers call) returns the state unchanged,
and after any request sequence the global still holds that same session —
no request ever reassigns or re-initializes it. -/
theorem session_assigned_once_at_startup (env : PipelineEnv)
    (init_result : Except String Session) (st0 st1 : AppState)
    (reqs : List Request)
    (h : startup_event init_result st0 = Except.ok st1) :
    (∃ s, init_result = Except.ok s ∧ st1.rembg_session = some s) ∧
    (∀ (st : AppState) (r : Request), (handle_request env st r).2 = st) ∧
    (run_requests env st1 reqs).2.rembg_session = st1.rembg_session := by
  refine ⟨?_, fun st r => handle_request_preserves_state env st r, ?_⟩
  · cases init_result with
    | error e => simp [startup_event] at h
    | ok s =>
      refine ⟨s, rfl, ?_⟩
      simp [startup_event] at h
      rw [← h]
  · rw [run_requests_preserves_state]

/-- A concrete collaborator environment for witnesses: the engine echoes its
input, decoding yields a fixed 7 by 5 RGB buffer, and encoding records the
buffer dimensions. -/
def trivial_env : PipelineEnv :=
  { remove := fun data _ => Except.ok data
    image_open := fun _ => Except.ok ⟨7, 5, "RGB"⟩
    image_save := fun img _ => [img.width, img.height] }

/-- Witness for C2: a concrete successful startup followed by two requests. -/
theorem session_assigned_once_at_startup_witness :
    (∃ s, (Except.ok (Session.mk "u2net") : Except String Session) = Except.ok s ∧
      (AppState.mk (some (Session.mk "u2net"))).rembg_session = some s) ∧
    (∀ (st : AppState) (r : Request),
      (handle_request trivial_env st r).2 = st) ∧
    (run_requests trivial_env (AppState.mk (some (Session.mk "u2net")))
        [Request.stream ⟨some "a.png", some "image/png", [1]⟩ "PNG" 95,
         Request.envelope ⟨some "a.png", some "image/png", [1]⟩ "WEBP" 50 0]).2.rembg_session =
      (AppState.mk (some (Session.mk "u2net"))).rembg_session :=
  session_assigned_once_at_startup trivial_env (Except.ok (Session.mk "u2net"))
    initial_app_state (AppState.mk (some (Session.mk "u2net")))
    [Request.stream ⟨some "a.png", some "image/png", [1]⟩ "PNG" 95,
     Request.envelope ⟨some "a.png", some "image/png", [1]⟩ "WEBP" 50 0] (by rfl)

/-! ## Claim C3: the envelope endpoint swallows every failure -/

/-- C3: whenever a request to `/remove-background-base64` fails — in
validation or in processing — the endpoint still answers with the envelope
(it returns a `BackgroundRemovalResponse`, never a transport error), carrying
`success = false`, an empty `base64_image`, both sizes zero, and a non-empty
descriptive message. -/
theorem envelope_failure_shape (env : PipelineEnv) (sess : Option Session)
    (file : UploadFile) (fmt : String) (q : Nat) (t : ℚ)
    (h : (∃ e, validate_image file = Except.error e) ∨
         (∃ msg, process_image_sync env sess file.content fmt q = Except.error msg)) :
    (remove_background_base64 env sess file fmt q t).success = false ∧
    (remove_background_base64 env sess file fmt q t).base64_image = "" ∧
    (remove_background_base64 env sess file fmt q t).original_size = 0 ∧
    (remove_background_base64 env sess file fmt q t).output_size = 0 ∧
    (remove_background_base64 env sess file fmt q t).message ≠ "" := by
  unfold remove_background_base64
  cases hv : validate_image file with
  | error e =>
    refine ⟨rfl, rfl, rfl, rfl, ?_⟩
    exact append_ne_empty "Validation failed: " e.detail (by decide)
  | ok u =>
    cases u
    dsimp only
    cases hp : process_image_sync env sess file.content fmt q with
    | error msg =>
      refine ⟨rfl, rfl, rfl, rfl, ?_⟩
      exact append_ne_empty "Background removal failed: " msg (by decide)
    | ok out =>
      exfalso
      rcases h with ⟨e, he⟩ | ⟨msg, hm⟩
      · rw [hv] at he; cases he
      · rw [hp] at hm; cases hm

/-- Witness for C3: a concrete upload with a disallowed extension gets the
failure envelope. -/
theorem envelope_failure_shape_witness :
    (remove_background_base64 trivial_env none ⟨some "a.txt", some "image/png", [1]⟩
      "PNG" 95 0).success = false ∧
    (remove_background_base64 trivial_env none ⟨some "a.txt", some "image/png", [1]⟩
      "PNG" 95 0).base64_image = "" ∧
    (remove_background_base64 trivial_env none ⟨some "a.txt", some "image/png", [1]⟩
      "PNG" 95 0).original_size = 0 ∧
    (remove_background_base64 trivial_env none ⟨some "a.txt", some "image/png", [1]⟩
      "PNG" 95 0).output_size = 0 ∧
    (remove_background_base64 trivial_env none ⟨some "a.txt", some "image/png", [1]⟩
      "PNG" 95 0).message ≠ "" :=
  envelope_failure_shape trivial_env none ⟨some "a.txt", some "image/png", [1]⟩
    "PNG" 95 0 (Or.inl ⟨unsupported_format_exc, by rfl⟩)

/-! ## Claim C7: compression ratio formula and clamping -/

/-- Rounding preserves nonnegativity. -/
lemma round2_nonneg (q : ℚ) (h : 0 ≤ q) : 0 ≤ round2 q := by
  unfold round2
  apply div_nonneg _ (by norm_num)
  have : (0 : ℤ) ≤ round (q * 100) := by
    rw [round_eq]
    apply Int.floor_nonneg.mpr
    have : (0 : ℚ) ≤ q * 100 := by positivity
    linarith
  exact_mod_cast this

/-- C7: in every successful envelope, the compression ratio is
`round((1 - output_size / original_size) * 100, 2)` when the output is
smaller than the input, is exactly `0` when it is not, and is never
negative. -/
theorem compression_ratio_clamped (env : PipelineEnv) (sess : Option Session)
    (file : UploadFile) (fmt : String) (q : Nat) (t : ℚ)
    (resp : BackgroundRemovalResponse)
    (hresp : remove_background_base64 env sess file fmt q t = resp)
    (hs : resp.success = true) :
    (resp.output_size < resp.original_size →
      resp.compression_ratio =
        round2 ((1 - (resp.output_size : ℚ) / (resp.original_size : ℚ)) * 100)) ∧
    (resp.original_size ≤ resp.output_size → resp.compression_ratio = 0) ∧
    0 ≤ resp.compression_ratio := by
  subst hresp
  unfold remove_background_base64 at hs ⊢
  revert hs
  cases hv : validate_image file with
  | error e => intro hs; dsimp only at hs; cases hs
  | ok u =>
    cases u
    dsimp only
    cases hp : process_image_sync env sess file.content fmt q with
    | error msg => intro hs; dsimp only at hs; cases hs
    | ok out =>
      intro hs
      dsimp only
      by_cases hlt : out.length < file.content.length
      · rw [if_pos hlt]
        refine ⟨fun _ => rfl, fun hge => absurd hlt (by omega), ?_⟩
        apply round2_nonneg
        have hposn : 0 < file.content.length := Nat.lt_of_le_of_lt (Nat.zero_le _) hlt
        have hpos : (0 : ℚ) < (file.content.length : ℚ) := by exact_mod_cast hposn
        have hdiv : (out.length : ℚ) / (file.content.length : ℚ) < 1 := by
          rw [div_lt_one hpos]
          exact_mod_cast hlt
        nlinarith
      · rw [if_neg hlt]
        exact ⟨fun hc => absurd hc hlt, fun _ => rfl, le_refl 0⟩

/-- Witness for C7: a successful concrete request whose 2-byte output from a
3-byte input yields the rounded ratio 33.33. -/
theorem compression_ratio_clamped_witness :
    ((remove_background_base64 trivial_env (some (Session.mk "u2net"))
        ⟨some "a.png", some "image/png", [1, 2, 3]⟩ "PNG" 95 0).output_size <
      (remove_background_base64 trivial_env (some (Session.mk "u2net"))
        ⟨some "a.png", some "image/png", [1, 2, 3]⟩ "PNG" 95 0).original_size →
      (remove_background_base64 trivial_env (some (Session.mk "u2net"))
        ⟨some "a.png", some "image/png", [1, 2, 3]⟩ "PNG" 95 0).compression_ratio =
        round2 ((1 - ((remove_background_base64 trivial_env (some (Session.mk "u2net"))
            ⟨some "a.png", some "image/png", [1, 2, 3]⟩ "PNG" 95 0).output_size : ℚ) /
          ((remove_background_base64 trivial_env (some (Session.mk "u2net"))
            ⟨some "a.png", some "image/png", [1, 2, 3]⟩ "PNG" 95 0).original_size : ℚ)) * 100)) ∧
    ((remove_background_base64 trivial_env (some (Session.mk "u2net"))
        ⟨some "a.png", some "image/png", [1, 2, 3]⟩ "PNG" 95 0).original_size ≤
      (remove_background_base64 trivial_env (some (Session.mk "u2net"))
        ⟨some "a.png", some "image/png", [1, 2, 3]⟩ "PNG" 95 0).output_size →
      (remove_background_base64 trivial_env (some (Session.mk "u2net"))
        ⟨some "a.png", some "image/png", [1, 2, 3]⟩ "PNG" 95 0).compression_ratio = 0) ∧
    0 ≤ (remove_background_base64 trivial_env (some (Session.mk "u2net"))
        ⟨some "a.png", some "image/png", [1, 2, 3]⟩ "PNG" 95 0).compression_ratio :=
  compression_ratio_clamped trivial_env (some (Session.mk "u2net"))
    ⟨some "a.png", some "image/png", [1, 2, 3]⟩ "PNG" 95 0 _ rfl (by rfl)

/-! ## Claim C8: re-encode parameters are selected by the output format -/

/-- C8: the save parameters are chosen by the requested format — PNG yields a
lossless encode with the fixed mid-range `compress_level=6`; a non-PNG format
yields a WEBP encode with the fixed best-effort `method=6` that is lossy for
every quality below 100 and lossless exactly at quality 100. -/
theorem encode_selected_by_format (fmt : String) (q : Nat) (hq : q ≤ 100) :
    (fmt.toUpper = "PNG" →
      encode_params fmt q =
        { format := "PNG", optimize := true, compress_level := some 6,
          quality := none, method := none, lossless := none } ∧
      lossless_encoding (encode_params fmt q)) ∧
    (fmt.toUpper ≠ "PNG" →
      (encode_params fmt q).format = "WEBP" ∧
      (encode_params fmt q).quality = some q ∧
      (encode_params fmt q).method = some 6 ∧
      ((encode_params fmt q).lossless = some false ↔ q < 100) ∧
      ((encode_params fmt q).lossless = some true ↔ q = 100) ∧
      (lossless_encoding (encode_params fmt q) ↔ q = 100)) := by
  constructor
  · intro h
    have hb : (fmt.toUpper == "PNG") = true := by simpa using h
    unfold encode_params
    rw [hb]
    exact ⟨rfl, Or.inl rfl⟩
  · intro h
    have hb : (fmt.toUpper == "PNG") = false := by simpa using h
    have he : encode_params fmt q =
        { format := "WEBP", optimize := false, compress_level := none,
          quality := some q, method := some 6,
          lossless := some (if q < 100 then false else true) } := by
      unfold encode_params
      rw [hb]
      simp
    rw [he]
    refine ⟨rfl, rfl, rfl, ?_, ?_, ?_⟩
    · by_cases hlt : q < 100 <;> simp [hlt]
    · by_cases hlt : q < 100 <;> simp [hlt] <;> omega
    · unfold lossless_encoding
      by_cases hlt : q < 100 <;> simp [hlt] <;> omega

/-- Witness for C8 at the WEBP format with quality 50. -/
theorem encode_selected_by_format_witness :
    (("WEBP").toUpper = "PNG" →
      encode_params "WEBP" 50 =
        { format := "PNG", optimize := true, compress_level := some 6,
          quality := none, method := none, lossless := none } ∧
      lossless_encoding (encode_params "WEBP" 50)) ∧
    (("WEBP").toUpper ≠ "PNG" →
      (encode_params "WEBP" 50).format = "WEBP" ∧
      (encode_params "WEBP" 50).quality = some 50 ∧
      (encode_params "WEBP" 50).method = some 6 ∧
      ((encode_params "WEBP" 50).lossless = some false ↔ 50 < 100) ∧
      ((encode_params "WEBP" 50).lossless = some true ↔ 50 = 100) ∧
      (lossless_encoding (encode_params "WEBP" 50) ↔ 50 = 100)) :=
  encode_selected_by_format "WEBP" 50 (by decide)

/-! ## Claim C9: the output buffer is RGBA with unchanged dimensions -/

/-- The transparency guard always yields an RGBA buffer of unchanged size. -/
lemma ensure_rgba_spec (img : PILImage) :
    (ensure_rgba img).mode = "RGBA" ∧ (ensure_rgba img).width = img.width ∧
      (ensure_rgba img).height = img.height := by
  unfold ensure_rgba convert
  by_cases h : img.mode ≠ "RGBA"
  · rw [if_pos h]
    exact ⟨rfl, rfl, rfl⟩
  · rw [if_neg h]
    exact ⟨not_not.mp h, rfl, rfl⟩

/-- C9: every successful run of `process_image_sync` encodes the pixel buffer
decoded from the engine result after forcing an alpha channel onto it: the
buffer handed to the encoder has mode RGBA and exactly the decoded buffer's
dimensions, and the selected parameters come from the requested format. -/
theorem output_is_rgba_with_same_dims (env : PipelineEnv) (sess : Session)
    (data : ByteSeq) (fmt : String) (q : Nat) (out : ByteSeq)
    (h : process_image_sync env (some sess) data fmt q = Except.ok out) :
    ∃ raw img0, env.remove data sess = Except.ok raw ∧
      env.image_open raw = Except.ok img0 ∧
      out = env.image_save (ensure_rgba img0) (encode_params fmt q) ∧
      (ensure_rgba img0).mode = "RGBA" ∧
      (ensure_rgba img0).width = img0.width ∧
      (ensure_rgba img0).height = img0.height := by
  unfold process_image_sync at h
  dsimp only at h
  cases hr : env.remove data sess with
  | error e => rw [hr] at h; cases h
  | ok raw =>
    rw [hr] at h
    dsimp only at h
    cases ho : env.image_open raw with
    | error e => rw [ho] at h; cases h
    | ok img0 =>
      rw [ho] at h
      dsimp only at h
      obtain ⟨hm, hw, hh⟩ := ensure_rgba_spec img0
      exact ⟨raw, img0, rfl, ho, (Except.ok.inj h).symm, hm, hw, hh⟩

/-- Witness for C9: in the concrete environment the decoded 7 by 5 RGB buffer
is re-encoded as a 7 by 5 RGBA buffer. -/
theorem output_is_rgba_with_same_dims_witness :
    ∃ raw img0, trivial_env.remove [9] (Session.mk "u2net") = Except.ok raw ∧
      trivial_env.image_open raw = Except.ok img0 ∧
      [7, 5] = trivial_env.image_save (ensure_rgba img0) (encode_params "PNG" 95) ∧
      (ensure_rgba img0).mode = "RGBA" ∧
      (ensure_rgba img0).width = img0.width ∧
      (ensure_rgba img0).height = img0.height :=
  output_is_rgba_with_same_dims trivial_env (Session.mk "u2net") [9] "PNG" 95
    [7, 5] (by rfl)

/-! ## Claim C1: pool capacity versus engine exclusivity -/

/-- The pool state in which units 0 and 1 are simultaneously inside the
engine invocation. -/
def both_in_engine_state : PoolState :=
  { queued := []
    running := [(0, UnitPhase.inEngine), (1, UnitPhase.inEngine)]
    finished := [] }

/-- With two concurrent submissions the scheduler can drive both units into
the engine section: admit both onto free threads, then let each call
`remove` before the other returns. -/
lemma reachable_both_in_engine : PoolReachable 2 both_in_engine_state := by
  have h1 : PoolStep (init_pool 2)
      ⟨[1], [(0, UnitPhase.beforeEngine)], []⟩ :=
    PoolStep.acquire (init_pool 2) 0 [1] (by decide) rfl
  have h2 : PoolStep ⟨[1], [(0, UnitPhase.beforeEngine)], []⟩
      ⟨[], [(0, UnitPhase.beforeEngine), (1, UnitPhase.beforeEngine)], []⟩ :=
    PoolStep.acquire _ 1 [] (by decide) rfl
  have h3 : PoolStep ⟨[], [(0, UnitPhase.beforeEngine), (1, UnitPhase.beforeEngine)], []⟩
      ⟨[], [(0, UnitPhase.inEngine), (1, UnitPhase.beforeEngine)], []⟩ :=
    PoolStep.enterEngine _ 0 [] [(1, UnitPhase.beforeEngine)] rfl
  have h4 : PoolStep ⟨[], [(0, UnitPhase.inEngine), (1, UnitPhase.beforeEngine)], []⟩
      both_in_engine_state :=
    PoolStep.enterEngine _ 1 [(0, UnitPhase.inEngine)] [] rfl
  exact Relation.ReflTransGen.refl.tail h1 |>.tail h2 |>.tail h3 |>.tail h4

/-- In that state two distinct units sit inside the engine at once. -/
lemma two_in_engine_state_holds : twoInEngine both_in_engine_state :=
  ⟨0, 1, by decide, by decide, by decide⟩

/-- Every pool step keeps the number of running units within capacity. -/
lemma poolStep_length_le {s t : PoolState} (h : PoolStep s t)
    (hs : s.running.length ≤ POOL_CAPACITY) :
    t.running.length ≤ POOL_CAPACITY := by
  cases h with
  | acquire k rest hcap hq =>
    simp only [List.length_append, List.length_cons, List.length_nil]
    omega
  | enterEngine k l₁ l₂ hr =>
    rw [hr] at hs
    simp only [List.length_append, List.length_cons] at hs ⊢
    omega
  | exitEngine k l₁ l₂ hr =>
    rw [hr] at hs
    simp only [List.length_append, List.length_cons] at hs ⊢
    omega
  | finish k l₁ l₂ hr =>
    rw [hr] at hs
    simp only [List.length_append, List.length_cons] at hs ⊢
    omega

/-- No reachable pool state runs more than `POOL_CAPACITY` units. -/
lemma poolReachable_length_le (K : Nat) (s : PoolState)
    (h : PoolReachable K s) : s.running.length ≤ POOL_CAPACITY := by
  induction h with
  | refl => simp [init_pool]
  | tail hab hbc ih => exact poolStep_length_le hbc ih

/-- C1 counterexample: the pool does not exclude concurrent entry into the
Segmentation Engine — already with two submissions a reachable state has two
distinct units inside the engine invocation on the shared session, so a fake
engine asserting no concurrent entry is triggered. -/
theorem two_units_inside_engine_reachable :
    PoolReachable 2 both_in_engine_state ∧ twoInEngine both_in_engine_state :=
  ⟨reachable_both_in_engine, two_in_engine_state_holds⟩

/-- C1 (amended): for any number of concurrent submissions at most
`POOL_CAPACITY = 4` units of work ever execute concurrently, but the pool
provides no mutual exclusion around the engine call: a state with two units
simultaneously inside the engine invocation is reachable. -/
theorem pool_bounded_but_engine_not_exclusive :
    (∀ K s, PoolReachable K s → s.running.length ≤ POOL_CAPACITY) ∧
    (PoolReachable 2 both_in_engine_state ∧ twoInEngine both_in_engine_state) :=
  ⟨fun K s h => poolReachable_length_le K s h,
   reachable_both_in_engine, two_in_engine_state_holds⟩

/-! ## Claim C4: no ServiceBusy classification exists -/

/-- A pool whose four worker threads are all busy inside the engine. -/
def full_pool_state : PoolState :=
  { queued := []
    running := [(0, UnitPhase.inEngine), (1, UnitPhase.inEngine),
                (2, UnitPhase.inEngine), (3, UnitPhase.inEngine)]
    finished := [] }

/-- C4 counterexample: a submission made while all four pool slots are
occupied does not fail — it is accepted into the executor queue, cannot be
admitted while capacity is exhausted, and the endpoint error mapping offers
only 400, 413 and 500, so no ServiceBusy or timeout classification can ever
be returned. -/
theorem submission_at_full_pool_waits :
    executor_submit full_pool_state 4 =
      { queued := [4], running := full_pool_state.running, finished := [] } ∧
    (∀ j, ¬ canAcquire (executor_submit full_pool_state 4) j) ∧
    (∀ (env : PipelineEnv) (sess : Option Session) (file : UploadFile)
       (fmt : String) (q : Nat) (e : HTTPException),
       remove_background env sess file fmt q = Except.error e →
       e.status_code = 400 ∨ e.status_code = 413 ∨ e.status_code = 500) := by
  refine ⟨rfl, ?_, ?_⟩
  · intro j hj
    exact absurd hj.1 (by decide)
  · intro env sess file fmt q e h
    exact remove_background_error_status env sess file fmt q e h

/-- C4 (amended): a submission arriving while all pool slots are occupied is
accepted at the tail of the executor FIFO queue and simply waits — it cannot
be admitted while capacity is exhausted and there is no bounded-wait failure:
the only failure statuses the endpoint can return are 400, 413 and 500, none
of them a ServiceBusy classification. -/
theorem submission_never_service_busy (s : PoolState) (k : Nat)
    (hfull : POOL_CAPACITY ≤ s.running.length) :
    (executor_submit s k).queued = s.queued ++ [k] ∧
    (∀ j, ¬ canAcquire (executor_submit s k) j) ∧
    (∀ (env : PipelineEnv) (sess : Option Session) (file : UploadFile)
       (fmt : String) (q : Nat) (e : HTTPException),
       remove_background env sess file fmt q = Except.error e →
       e.status_code = 400 ∨ e.status_code = 413 ∨ e.status_code = 500) := by
  refine ⟨rfl, ?_, ?_⟩
  · intro j hj
    have hlen : (executor_submit s k).running.length = s.running.length := rfl
    have hlt := hj.1
    rw [hlen] at hlt
    omega
  · intro env sess file fmt q e h
    exact remove_background_error_status env sess file fmt q e h

/-- Witness for C4 (amended) at the concrete full pool. -/
theorem submission_never_service_busy_witness :
    (executor_submit full_pool_state 9).queued = full_pool_state.queued ++ [9] ∧
    (∀ j, ¬ canAcquire (executor_submit full_pool_state 9) j) ∧
    (∀ (env : PipelineEnv) (sess : Option Session) (file : UploadFile)
       (fmt : String) (q : Nat) (e : HTTPException),
       remove_background env sess file fmt q = Except.error e →
       e.status_code = 400 ∨ e.status_code = 413 ∨ e.status_code = 500) :=
  submission_never_service_busy full_pool_state 9 (by decide)

end BgRemover
